import Mathlib

/-!
Verification development for the Arcaid browser SDK (loader + core script).

The definitions below are a shallow embedding of the JavaScript sources:
`src/temp/arcaid-core-sdk.js` (core SDK: transport bridge, readiness gate,
capability modules) and the loader script (global `init`, config handshake
and merge).  JavaScript values that the code inspects dynamically are
modelled by the inductive `JsVal`; absent record fields are `Option.none`;
JavaScript truthiness is modelled explicitly.
-/

/-- Model of a dynamically-typed JavaScript value as the SDK inspects them:
`vundefined`/`vnull` for `undefined`/`null`, primitives, plain objects as
association lists of own properties, and `verror m` for an `Error` instance
whose `message` is `m`. -/
inductive JsVal where
  | vundefined
  | vnull
  | vbool (b : Bool)
  | vnum (n : Int)
  | vstr (s : String)
  | vobj (fields : List (String × JsVal))
  | verror (msg : String)

/-- Own-property lookup in the field list of an object (first binding wins). -/
def lookupField : List (String × JsVal) → String → Option JsVal
  | [], _ => none
  | (k, v) :: rest, key => if k = key then some v else lookupField rest key

/-- Access in the style of `hasOwnProperty`: `some v` when the own property exists. -/
def getOwn : JsVal → String → Option JsVal
  | .vobj fs, key => lookupField fs key
  | _, _ => none

/-- Plain property access `v.k`: yields `undefined` when absent or when the
receiver is not an object. -/
def jsGet (v : JsVal) (k : String) : JsVal :=
  (getOwn v k).getD .vundefined

/-- JavaScript truthiness of a value. -/
def jsTruthy : JsVal → Bool
  | .vundefined => false
  | .vnull => false
  | .vbool b => b
  | .vnum n => n != 0
  | .vstr s => s != ""
  | .vobj _ => true
  | .verror _ => true

/-- The test `typeof v === "object"` (true for `null`, plain objects and `Error` values). -/
def typeofObject : JsVal → Bool
  | .vnull => true
  | .vobj _ => true
  | .verror _ => true
  | _ => false

/-- The test `v instanceof Error`. -/
def isError : JsVal → Bool
  | .verror _ => true
  | _ => false

/-- The test `v !== undefined && v !== null`. -/
def definedNonNull : JsVal → Bool
  | .vundefined => false
  | .vnull => false
  | _ => true

/-- The test `typeof v === "string"`. -/
def isString : JsVal → Bool
  | .vstr _ => true
  | _ => false

/-- The conversion `String(v)` for the value shapes the SDK converts. -/
def jsToString : JsVal → String
  | .vundefined => "undefined"
  | .vnull => "null"
  | .vbool b => if b then "true" else "false"
  | .vnum n => toString n
  | .vstr s => s
  | .vobj _ => "[object Object]"
  | .verror m => "Error: " ++ m

/-- The `message` field of an `Error` value (`e.message`). -/
def errMsgOf : JsVal → String
  | .verror m => m
  | _ => ""

/-- Whether the first character list starts with the second. -/
def chStarts : List Char → List Char → Bool
  | _, [] => true
  | [], _ :: _ => false
  | a :: as, b :: bs => a == b && chStarts as bs

/-- Whether the second character list occurs contiguously in the first. -/
def chSub : List Char → List Char → Bool
  | [], needle => needle.isEmpty
  | a :: t, needle => chStarts (a :: t) needle || chSub t needle

/-- String containment `hay.includes(needle)`. -/
def strIncludes (hay needle : String) : Bool :=
  chSub hay.toList needle.toList

/-- String suffix test `hay.endsWith(needle)`. -/
def strEndsWith (hay needle : String) : Bool :=
  chStarts hay.toList.reverse needle.toList.reverse

/- ### Transport bridge: `_resolvePendingRequest` classification
(`src/temp/arcaid-core-sdk.js`, lines 102-122). -/

/-- An inbound platform message as seen by the core SDK: its `type` string,
optional `messageId`, and `payload`. -/
structure InboundMsg where
  type : String
  messageId : Option String
  payload : JsVal

/-- Settlement of the deferred of a pending request: resolved with a value or
rejected with an error value. -/
inductive Settlement where
  | resolve (v : JsVal)
  | reject (e : JsVal)

/-- The explicit error field of a response payload, when present and
non-null: `payload && typeof payload === "object" &&
payload.hasOwnProperty("error") && payload.error !== undefined &&
payload.error !== null`. -/
def errFieldOf (payload : JsVal) : Option JsVal :=
  if jsTruthy payload && typeofObject payload then
    match getOwn payload "error" with
    | some e => if definedNonNull e then some e else none
    | none => none
  else none

/-- The type-name error heuristic of `_resolvePendingRequest`:
`data.type.includes("ERROR") || data.type.endsWith("_FAILED") ||
data.type.endsWith("_ERROR_RESPONSE")`. -/
def typeSignalsError (t : String) : Bool :=
  strIncludes t "ERROR" || strEndsWith t "_FAILED" || strEndsWith t "_ERROR_RESPONSE"

/-- The rejection message derived for a failure-typed response:
`payload.message` when the payload is a truthy object with a truthy
`message`, else the payload itself when it is a non-empty string, else a
generic message naming the type. -/
def failMessage (t : String) (payload : JsVal) : String :=
  if jsTruthy payload && typeofObject payload && jsTruthy (jsGet payload "message") then
    jsToString (jsGet payload "message")
  else if isString payload && jsTruthy payload then
    jsToString payload
  else
    "Platform operation failed with type " ++ t

/-- How `_resolvePendingRequest` settles a matched pending request, given the
message `type` and `payload` fields: an explicit non-null `payload.error` rejects
(wrapped in an `Error` unless it already is one); otherwise an error-signalling
type name rejects with a derived message; otherwise it resolves with the raw
payload. -/
def settleResponse (t : String) (payload : JsVal) : Settlement :=
  match errFieldOf payload with
  | some e => .reject (if isError e then e else .verror (jsToString e))
  | none =>
    if typeSignalsError t then
      .reject (.verror (failMessage t payload))
    else
      .resolve payload

/-- Spec-side heuristic for claim comparison, written from the words of the
spec: the type carries one of the suffixes `*_ERROR`, `*_FAILED`,
`*_ERROR_RESPONSE`. Used only to compare against the `typeSignalsError`
heuristic of the code. -/
def specSuffixHeuristic (t : String) : Bool :=
  strEndsWith t "_ERROR" || strEndsWith t "_FAILED" || strEndsWith t "_ERROR_RESPONSE"

/- ### Pending-request map: registration, response arrival, timeout
(`requestParent` lines 68-101, `_resolvePendingRequest` lines 102-122). -/

/-- The set of message ids with an outstanding pending request
(the keys of the `pendingRequests` map). -/
abbrev Pending := List String

/-- Map removal `pendingRequests.delete(mid)`. -/
def removeId (ps : Pending) (m : String) : Pending :=
  ps.filter (fun x => decide (x ≠ m))

/-- Map membership `pendingRequests.has(mid)`. -/
def hasId (ps : Pending) (m : String) : Bool :=
  decide (m ∈ ps)

/-- An event affecting the pending-request map: the timeout scheduled for a
given message id fires, or an inbound message arrives. -/
inductive BridgeEvent where
  | timeoutFire (mid : String) (reqType : String)
  | inbound (msg : InboundMsg)

/-- One step of the pending-request map. A timeout rejects and deletes only
when its id is still pending. An inbound message settles and deletes only
when it carries a truthy `messageId` that is pending (`_resolvePendingRequest`
returns `false` otherwise and leaves the map alone). Returns the new map and
the settlements fired, tagged by message id. -/
def stepBridge (ps : Pending) : BridgeEvent → Pending × List (String × Settlement)
  | .timeoutFire m t =>
    if hasId ps m then
      (removeId ps m,
        [(m, .reject (.verror ("Request timed out for " ++ t ++ ": " ++ m)))])
    else
      (ps, [])
  | .inbound msg =>
    match msg.messageId with
    | some m =>
      if m != "" && hasId ps m then
        (removeId ps m, [(m, settleResponse msg.type msg.payload)])
      else
        (ps, [])
    | none => (ps, [])

/-- Run a sequence of bridge events from an initial pending map, collecting
every settlement fired in order. -/
def runBridge (ps : Pending) : List BridgeEvent → Pending × List (String × Settlement)
  | [] => (ps, [])
  | e :: es =>
    ((runBridge (stepBridge ps e).1 es).1,
     (stepBridge ps e).2 ++ (runBridge (stepBridge ps e).1 es).2)

/-- Number of settlements fired for a given message id. -/
def settleCount (m : String) (outs : List (String × Settlement)) : Nat :=
  (outs.filter (fun p => p.1 == m)).length

/-- Outcome of a single `requestParent` call, as observable when the call
returns: the pending map afterwards, whether the envelope was posted to the
parent, whether a timeout was scheduled, and any synchronous rejection. -/
structure ReqOutcome where
  pendingAfter : Pending
  posted : Bool
  timeoutScheduled : Bool
  immediateReject : Option JsVal

/-- Model of `requestParent` (lines 68-101): registers the deferred under a fresh
message id, then either posts to the parent and schedules the timeout, or —
when no parent window exists — rejects with `Error("No parent window.")`,
deletes the entry and returns at once. -/
def requestParent (hasParent : Bool) (ps : Pending) (mid : String) : ReqOutcome :=
  let ps1 := mid :: ps
  if hasParent then
    { pendingAfter := ps1, posted := true, timeoutScheduled := true,
      immediateReject := none }
  else
    { pendingAfter := removeId ps1 mid, posted := false, timeoutScheduled := false,
      immediateReject := some (.verror "No parent window.") }

/- ### Readiness gate (`_checkAndResolveReady` lines 29-40,
`_updatePlatformConfig` lines 45-56). -/

/-- Model of `UserSessionData`: login flag, wallet address, session token
(each of the latter possibly `null`). -/
structure UserSession where
  isLoggedIn : Bool
  userWalletAddress : Option String
  sessionToken : Option String

/-- Internal configuration of the core SDK, restricted to the fields the
readiness gate and modules read: `gameId`, `platformOrigin`, `userSession`. -/
structure CoreConfig where
  gameId : Option String
  platformOrigin : Option String
  userSession : Option UserSession

/-- A config chunk delivered by `ARCAID_UPDATE_USER_SESSION` and merged
shallowly by `_updatePlatformConfig`: an outer `some` means the field is
present in the chunk and overwrites the old value wholesale. -/
structure CoreChunk where
  gameId : Option String
  platformOrigin : Option String
  userSession : Option (Option UserSession)

/-- Shallow merge performed by `_updatePlatformConfig`:
`{ ...this._internalConfig, ...updatedConfigChunk }`. -/
def updatePlatformConfig (c : CoreConfig) (ch : CoreChunk) : CoreConfig :=
  { gameId := match ch.gameId with | some v => some v | none => c.gameId
    platformOrigin := match ch.platformOrigin with | some v => some v | none => c.platformOrigin
    userSession := match ch.userSession with | some s => s | none => c.userSession }

/-- Truthiness of an optional string field (`null`/absent and `""` are falsy). -/
def optStrTruthy : Option String → Bool
  | some s => s != ""
  | none => false

/-- Readiness condition of `_checkAndResolveReady`:
`this._internalConfig && this._internalConfig.userSession &&
this._internalConfig.userSession.sessionToken`. -/
def checkReady (c : CoreConfig) : Bool :=
  match c.userSession with
  | some us => optStrTruthy us.sessionToken
  | none => false

/-- The successive configuration states: the initial configuration followed by
the configuration after each session-update merge. -/
def configStates (c : CoreConfig) : List CoreChunk → List CoreConfig
  | [] => [c]
  | ch :: rest => c :: configStates (updatePlatformConfig c ch) rest

/-- Whether the ready promise has resolved after construction with `c` and the
given sequence of session updates: `_checkAndResolveReady` runs at
construction and after every merge, and resolution is permanent (resolving a
promise twice has no further effect). -/
def readyResolved (c : CoreConfig) : List CoreChunk → Bool
  | [] => checkReady c
  | ch :: rest => checkReady c || readyResolved (updatePlatformConfig c ch) rest

/- ### PaymentsModule.makeBet (lines 205-240). -/

/-- The synchronous part of `makeBet`: either a synchronous structured
rejection, or the `BET_REQUEST` transport request that is issued. -/
inductive MakeBetStep where
  | localReject (success : Bool) (error : String)
  | request (reqType : String) (payload : JsVal)

/-- The literal error message for a missing `gameId`. -/
def gameIdErrMsg : String :=
  "Arcaid SDK (PaymentsModule): Cannot make bet. SDK not fully initialized or gameId missing."

/-- The literal error message for invalid bet parameters. -/
def paramsErrMsg : String :=
  "Arcaid SDK (PaymentsModule): Invalid parameters for makeBet. roomId and positive amount required."

/-- The test `typeof v === "number"`. -/
def isNumber : JsVal → Bool
  | .vnum _ => true
  | _ => false

/-- The test `amount <= 0` (false for non-numbers, which the `typeof` guard already
excludes). -/
def numLeZero : JsVal → Bool
  | .vnum n => decide (n ≤ 0)
  | _ => false

/-- Validation and request construction of `makeBet`: rejects with a structured
`{success:false, error}` when `currentConfig.gameId` is missing, then when
`!roomDocId || typeof amount !== "number" || amount <= 0`; otherwise issues the
`BET_REQUEST` with payload `{roomDocId, amount, reason}`. -/
def makeBetStep (gameId : Option String) (roomDocId amount reason : JsVal) : MakeBetStep :=
  if !optStrTruthy gameId then
    .localReject false gameIdErrMsg
  else if !jsTruthy roomDocId || !isNumber amount || numLeZero amount then
    .localReject false paramsErrMsg
  else
    .request "BET_REQUEST"
      (.vobj [("roomDocId", roomDocId), ("amount", amount), ("reason", reason)])

/-- Final outcome of a `makeBet` call: the promise resolves with a value or
rejects with an error value. -/
inductive BetResult where
  | resolved (v : JsVal)
  | rejected (e : JsVal)

/-- The structured failure object `{success:false, error: msg}`. -/
def structuredFail (msg : String) : JsVal :=
  .vobj [("success", .vbool false), ("error", .vstr msg)]

/-- The whole of `makeBet`, with the settlement of the underlying
`requestParent` promise supplied as `transport` (resolution value or rejection
error). Local validation failures reject with the structured object; a
transport rejection is caught and re-raised as
`{success:false, error: error instanceof Error ? error.message : String(error)}`;
a transport resolution is returned verbatim. -/
def makeBet (gameId : Option String) (roomDocId amount reason : JsVal)
    (transport : JsVal → Except JsVal JsVal) : BetResult :=
  match makeBetStep gameId roomDocId amount reason with
  | .localReject _ m => .rejected (structuredFail m)
  | .request _ payload =>
    match transport payload with
    | .ok v => .resolved v
    | .error e =>
      .rejected (structuredFail (if isError e then errMsgOf e else jsToString e))

/- ### Loader: config merge and `coreSdkUrl` resolution
(`src/unnamed/part_001`, `init`, lines 32-61). -/

/-- A loader-level configuration object (developer `devConfig` or the
handshake response of the platform): every field optional, `none` meaning the
property is absent. -/
structure LoaderConfig where
  coreSdkUrl : Option String
  arcaidApiBaseUrl : Option String
  sdkVersion : Option String
  gameId : Option String
  platformOrigin : Option String
  userSession : Option UserSession

/-- JavaScript object-spread on one optional field: the later (platform)
property wins whenever it is present. -/
def spreadField (dev plat : Option α) : Option α :=
  match plat with
  | some v => some v
  | none => dev

/-- Disjunction `a || b` on an optional string against a string default: `a`
when truthy (present and non-empty), else `b`. -/
def jsOrStr (a : Option String) (b : String) : String :=
  match a with
  | some s => if s = "" then b else s
  | none => b

/-- Merged configuration built by the loader (lines 47-58):
`{ ...initConfigOptions, ...platformConfig }`, then `userSession` forced from
the platform when present, then `arcaidApiBaseUrl` and `sdkVersion` reassigned
from the platform when the platform value is truthy and the developer value is
not. -/
def mergeLoaderConfig (dev plat : LoaderConfig) : LoaderConfig :=
  let base : LoaderConfig :=
    { coreSdkUrl := spreadField dev.coreSdkUrl plat.coreSdkUrl
      arcaidApiBaseUrl := spreadField dev.arcaidApiBaseUrl plat.arcaidApiBaseUrl
      sdkVersion := spreadField dev.sdkVersion plat.sdkVersion
      gameId := spreadField dev.gameId plat.gameId
      platformOrigin := spreadField dev.platformOrigin plat.platformOrigin
      userSession := spreadField dev.userSession plat.userSession }
  let c1 :=
    if plat.userSession.isSome then { base with userSession := plat.userSession } else base
  let c2 :=
    if optStrTruthy plat.arcaidApiBaseUrl && !optStrTruthy dev.arcaidApiBaseUrl then
      { c1 with arcaidApiBaseUrl := plat.arcaidApiBaseUrl }
    else c1
  if optStrTruthy plat.sdkVersion && !optStrTruthy dev.sdkVersion then
    { c2 with sdkVersion := plat.sdkVersion }
  else c2

/-- The templated CDN default for the core bundle URL. -/
def cdnTemplate (v : String) : String :=
  "https://cdn.arcaid.com/sdk/core/v" ++ v ++ "/arcaid-core-sdk.js"

/-- Resolution at line 60: the developer `coreSdkUrl` when truthy, else the
platform one, else the CDN template applied to the merged `sdkVersion` with
the fallback literal "current". -/
def resolveCoreSdkUrl (dev plat : LoaderConfig) : String :=
  jsOrStr dev.coreSdkUrl
    (jsOrStr plat.coreSdkUrl
      (cdnTemplate (jsOrStr (mergeLoaderConfig dev plat).sdkVersion "current")))

/- ### Loader: idempotent global `init()` (`src/unnamed/part_001`,
lines 22-79). -/

/-- State of the `window.Arcaid` loader singleton: the stored in-flight
promise (identified by a promise id), the `initCalled` flag, how many config
handshakes and core-script loads have been performed, and a fresh-id
counter. -/
structure LoaderState where
  coreSdkPromise : Option Nat
  initCalled : Bool
  devOptions : Option LoaderConfig
  handshakes : Nat
  scriptLoads : Nat
  nextId : Nat

/-- The loader state before any `init()` call. -/
def freshLoader : LoaderState :=
  { coreSdkPromise := none, initCalled := false, devOptions := none,
    handshakes := 0, scriptLoads := 0, nextId := 0 }

/-- One call to `Arcaid.init(devConfig)`: sets `initCalled`; returns the
stored promise unchanged when one exists; otherwise stores the developer
options, creates the promise, performs the parent handshake (when inside an
iframe) and the core-script load, and stores and returns the new promise. -/
def initStep (inIframe : Bool) (devConfig : Option LoaderConfig) (st : LoaderState) :
    LoaderState × Nat :=
  let st1 := { st with initCalled := true }
  match st1.coreSdkPromise with
  | some p => (st1, p)
  | none =>
    let pid := st1.nextId
    ({ st1 with
        coreSdkPromise := some pid
        devOptions := some (devConfig.getD
          { coreSdkUrl := none, arcaidApiBaseUrl := none, sdkVersion := none,
            gameId := none, platformOrigin := none, userSession := none })
        handshakes := st1.handshakes + (if inIframe then 1 else 0)
        scriptLoads := st1.scriptLoads + 1
        nextId := st1.nextId + 1 }, pid)

/- ### MultiplayerModule: room-message fan-out (`handlePlatformMessage`,
lines 327-378; `onMessage`, lines 441-452). -/

/-- The `onRoomMessageListeners` registry: message-type string (including the
wildcard key `"*"`) to the set of registered callbacks, callbacks identified
by numbers. -/
abbrev MsgRegistry := List (String × List Nat)

/-- Lookup `onRoomMessageListeners.get(key)`, as the (possibly empty) callback
list. -/
def regLookup : MsgRegistry → String → List Nat
  | [], _ => []
  | (k, cbs) :: rest, key => if k = key then cbs else regLookup rest key

/-- The test `v === undefined`. -/
def isUndef : JsVal → Bool
  | .vundefined => true
  | _ => false

/-- The registry key selected by the `messageType` value of a payload: registrations
go through `onMessage(type: string)`, so only string values can match. -/
def asKey : JsVal → Option String
  | .vstr s => some s
  | _ => none

/-- One listener invocation: which callback fired and with which argument. -/
structure Invocation where
  cb : Nat
  arg : JsVal

/-- The `MULTIPLAYER_ROOM_MESSAGE_EVENT` branch of `handlePlatformMessage`:
when `data.payload && data.payload.messageType !== undefined`, invoke every
listener registered for `messageType` with `messageData`, then every listener
registered under `"*"` with the envelope `{type: messageType, data:
messageData}`. -/
def dispatchRoomMessage (reg : MsgRegistry) (payload : JsVal) : List Invocation :=
  if jsTruthy payload && !isUndef (jsGet payload "messageType") then
    let mt := jsGet payload "messageType"
    let md := jsGet payload "messageData"
    let specific :=
      match asKey mt with
      | some k => (regLookup reg k).map (fun c => { cb := c, arg := md })
      | none => []
    let generic :=
      (regLookup reg "*").map
        (fun c => { cb := c, arg := .vobj [("type", mt), ("data", md)] })
    specific ++ generic
  else []

/-- Model of `MultiplayerModule.handlePlatformMessage`, restricted to the
invocations of the `onRoomMessageListeners` registry: a message whose truthy `messageId`
is still pending in the SDK instance is dropped; otherwise the switch on
`data.type` reaches the room-message branch only for
`MULTIPLAYER_ROOM_MESSAGE_EVENT` (every other case touches a different
registry). -/
def handlePlatformMessage (pending : Pending) (reg : MsgRegistry) (msg : InboundMsg) :
    List Invocation :=
  let guarded :=
    match msg.messageId with
    | some m => m != "" && hasId pending m
    | none => false
  if guarded then []
  else if msg.type = "MULTIPLAYER_ROOM_MESSAGE_EVENT" then
    dispatchRoomMessage reg msg.payload
  else []

/- ### Lemmas about the pending-request map. -/

/-- Membership after a map removal. -/
theorem mem_removeId {ps : Pending} {m x : String} :
    x ∈ removeId ps m ↔ x ∈ ps ∧ x ≠ m := by
  simp [removeId]

/-- An id is never pending after its own removal. -/
theorem not_mem_removeId_self (ps : Pending) (m : String) : m ∉ removeId ps m := by
  simp [mem_removeId]

/-- Map membership as propositional membership. -/
theorem hasId_iff {ps : Pending} {m : String} : hasId ps m = true ↔ m ∈ ps := by
  simp [hasId]

/-- Settlement counts add over appended output lists. -/
theorem settleCount_append (m : String) (a b : List (String × Settlement)) :
    settleCount m (a ++ b) = settleCount m a + settleCount m b := by
  simp [settleCount, List.filter_append]

/-- Each bridge step either leaves the map untouched and fires nothing, or
fires exactly one settlement for some pending id and removes that id. -/
theorem stepBridge_cases (ps : Pending) (e : BridgeEvent) :
    ((stepBridge ps e).1 = ps ∧ (stepBridge ps e).2 = []) ∨
    ∃ m s, m ∈ ps ∧ (stepBridge ps e).1 = removeId ps m ∧ (stepBridge ps e).2 = [(m, s)] := by
  cases e with
  | timeoutFire m t =>
    by_cases h : hasId ps m = true
    · exact Or.inr ⟨m, Settlement.reject (.verror ("Request timed out for " ++ t ++ ": " ++ m)),
        hasId_iff.1 h, by simp [stepBridge, h], by simp [stepBridge, h]⟩
    · simp only [Bool.not_eq_true] at h
      exact Or.inl ⟨by simp [stepBridge, h], by simp [stepBridge, h]⟩
  | inbound msg =>
    cases hm : msg.messageId with
    | none => exact Or.inl ⟨by simp [stepBridge, hm], by simp [stepBridge, hm]⟩
    | some m =>
      by_cases h : (m != "" && hasId ps m) = true
      · have hmem : m ∈ ps := hasId_iff.1 (Bool.and_elim_right h)
        exact Or.inr ⟨m, settleResponse msg.type msg.payload, hmem,
          by simp [stepBridge, hm, h], by simp [stepBridge, hm, h]⟩
      · simp only [Bool.not_eq_true] at h
        exact Or.inl ⟨by simp [stepBridge, hm, h], by simp [stepBridge, hm, h]⟩

/-- A settlement list for a single foreign id contributes nothing to the
count of `m`. -/
theorem settleCount_single_ne {m m' : String} (h : m' ≠ m) (s : Settlement) :
    settleCount m [(m', s)] = 0 := by
  simp [settleCount, h]

/-- A settlement list for `m` itself contributes one. -/
theorem settleCount_single_self (m : String) (s : Settlement) :
    settleCount m [(m, s)] = 1 := by
  simp [settleCount]

/-- An id that is not pending is never settled by any later event, and never
re-enters the map. -/
theorem runBridge_not_pending (m : String) :
    ∀ (evs : List BridgeEvent) (ps : Pending), m ∉ ps →
      settleCount m (runBridge ps evs).2 = 0 ∧ m ∉ (runBridge ps evs).1 := by
  intro evs
  induction evs with
  | nil => exact fun ps h => ⟨rfl, h⟩
  | cons e es ih =>
    intro ps h
    rcases stepBridge_cases ps e with ⟨h1, h2⟩ | ⟨m', s, hmem, h1, h2⟩
    · have := ih ps h
      simp only [runBridge, h1, h2, List.nil_append]
      exact this
    · have hne : m' ≠ m := fun heq => h (heq ▸ hmem)
      have hnotin : m ∉ removeId ps m' := fun hc => h (mem_removeId.1 hc).1
      have := ih (removeId ps m') hnotin
      simp only [runBridge, h1, h2, settleCount_append, settleCount_single_ne hne,
        Nat.zero_add]
      exact this

/-- Over any sequence of bridge events, each message id is settled at most
once, and once settled it is no longer pending. -/
theorem runBridge_at_most_once (m : String) :
    ∀ (evs : List BridgeEvent) (ps : Pending),
      settleCount m (runBridge ps evs).2 ≤ 1 ∧
      (1 ≤ settleCount m (runBridge ps evs).2 → m ∉ (runBridge ps evs).1) := by
  intro evs
  induction evs with
  | nil => exact fun ps => ⟨Nat.zero_le 1, fun h => absurd h (by simp [runBridge, settleCount])⟩
  | cons e es ih =>
    intro ps
    rcases stepBridge_cases ps e with ⟨h1, h2⟩ | ⟨m', s, hmem, h1, h2⟩
    · simpa only [runBridge, h1, h2, List.nil_append] using ih ps
    · by_cases hne : m' = m
      · rcases hne with rfl
        have hrest := runBridge_not_pending m' es (removeId ps m') (not_mem_removeId_self ps m')
        constructor
        · simp only [runBridge, h1, h2, settleCount_append, settleCount_single_self,
            hrest.1]
          omega
        · intro _
          simp only [runBridge, h1]
          exact hrest.2
      · have hne' : m' ≠ m := hne
        simpa only [runBridge, h1, h2, settleCount_append, settleCount_single_ne hne',
          Nat.zero_add] using ih (removeId ps m')

/-- C2. For every request sent through requestParent, at most one of
resolve/reject of its deferred ever fires: response arrival and timeout
firing are mutually exclusive, whichever occurs first removes the pending
entry from the pendingRequests map, and the later one has no effect — over
any interleaving of timeouts and inbound messages, each message id is
settled at most once, and once settled it is no longer pending. -/
theorem c2_at_most_one_settlement (ps : Pending) (evs : List BridgeEvent) (m : String) :
    settleCount m (runBridge ps evs).2 ≤ 1 ∧
    (1 ≤ settleCount m (runBridge ps evs).2 → m ∉ (runBridge ps evs).1) :=
  runBridge_at_most_once m evs ps

/-- Witness for C2 at a concrete run: one pending request, its timeout fires
and a matching response arrives afterwards; exactly one settlement is
recorded and the entry is gone. -/
theorem c2_at_most_one_settlement_witness :
    settleCount "sdk-msg-1" (runBridge ["sdk-msg-1"]
        [BridgeEvent.timeoutFire "sdk-msg-1" "BET_REQUEST",
         BridgeEvent.inbound
           { type := "BET_RESPONSE", messageId := some "sdk-msg-1",
             payload := JsVal.vnull }]).2 ≤ 1 ∧
    "sdk-msg-1" ∉ (runBridge ["sdk-msg-1"]
        [BridgeEvent.timeoutFire "sdk-msg-1" "BET_REQUEST",
         BridgeEvent.inbound
           { type := "BET_RESPONSE", messageId := some "sdk-msg-1",
             payload := JsVal.vnull }]).1 :=
  ⟨(c2_at_most_one_settlement ["sdk-msg-1"] _ "sdk-msg-1").1,
   (c2_at_most_one_settlement ["sdk-msg-1"] _ "sdk-msg-1").2 (by decide)⟩

/-- C9. A requestParent call with no parent window rejects immediately with
the "No parent window." error; when the call returns, the pendingRequests
map holds no entry for the generated messageId, no envelope was posted, and
no timeout is scheduled for it. -/
theorem c9_requestParent_no_parent (ps : Pending) (mid : String) :
    (requestParent false ps mid).immediateReject = some (.verror "No parent window.") ∧
    hasId (requestParent false ps mid).pendingAfter mid = false ∧
    (requestParent false ps mid).timeoutScheduled = false ∧
    (requestParent false ps mid).posted = false := by
  refine ⟨rfl, ?_, rfl, rfl⟩
  simp only [requestParent, Bool.false_eq_true, if_false, hasId, decide_eq_false_iff_not]
  exact not_mem_removeId_self (mid :: ps) mid

/- ### Lemmas about the string heuristics. -/

/-- Starting-with as an append decomposition. -/
theorem chStarts_iff (n : List Char) :
    ∀ l : List Char, chStarts l n = true ↔ ∃ r, l = n ++ r := by
  induction n with
  | nil =>
    intro l
    simp [chStarts]
  | cons b bs ih =>
    intro l
    cases l with
    | nil => simp [chStarts]
    | cons a t =>
      simp only [chStarts, Bool.and_eq_true, beq_iff_eq, ih t, List.cons_append,
        List.cons.injEq]
      constructor
      · rintro ⟨rfl, r, rfl⟩
        exact ⟨r, rfl, rfl⟩
      · rintro ⟨r, rfl, rfl⟩
        exact ⟨rfl, r, rfl⟩

/-- Containment as an append decomposition. -/
theorem chSub_iff (n : List Char) :
    ∀ h : List Char, chSub h n = true ↔ ∃ p r, h = p ++ n ++ r := by
  intro h
  induction h with
  | nil =>
    simp only [chSub, List.isEmpty_iff]
    constructor
    · rintro rfl
      exact ⟨[], [], rfl⟩
    · rintro ⟨p, r, hr⟩
      rcases List.append_eq_nil.1 (List.append_eq_nil.1 hr.symm).1 with ⟨-, h2⟩
      exact h2
  | cons a t ih =>
    simp only [chSub, Bool.or_eq_true, chStarts_iff, ih]
    constructor
    · rintro (⟨r, hr⟩ | ⟨p, r, hr⟩)
      · exact ⟨[], r, by simpa using hr⟩
      · exact ⟨a :: p, r, by simp [hr]⟩
    · rintro ⟨p, r, hr⟩
      cases p with
      | nil => exact Or.inl ⟨r, by simpa using hr⟩
      | cons x p =>
        refine Or.inr ⟨p, r, ?_⟩
        simpa using congrArg List.tail hr

/-- Ending-with as an append decomposition. -/
theorem strEndsWith_iff (t s : String) :
    strEndsWith t s = true ↔ ∃ p, t.toList = p ++ s.toList := by
  unfold strEndsWith
  rw [chStarts_iff]
  constructor
  · rintro ⟨r, hr⟩
    refine ⟨r.reverse, ?_⟩
    have h2 := congrArg List.reverse hr
    simpa [List.reverse_append] using h2
  · rintro ⟨p, hp⟩
    exact ⟨p.reverse, by rw [hp]; simp [List.reverse_append]⟩

/-- A type ending in _ERROR_RESPONSE contains ERROR as a substring, so the
third disjunct of the type heuristic is subsumed by the first. -/
theorem strIncludes_of_endsWith_error_response (t : String)
    (h : strEndsWith t "_ERROR_RESPONSE" = true) : strIncludes t "ERROR" = true := by
  obtain ⟨p, hp⟩ := (strEndsWith_iff t _).1 h
  unfold strIncludes
  rw [chSub_iff]
  refine ⟨p ++ ['_'], ['_', 'R', 'E', 'S', 'P', 'O', 'N', 'S', 'E'], ?_⟩
  rw [hp]
  have hlist : ("_ERROR_RESPONSE".toList : List Char) =
      ['_'] ++ "ERROR".toList ++ ['_', 'R', 'E', 'S', 'P', 'O', 'N', 'S', 'E'] := by
    decide
  rw [hlist]
  simp

/-- The type heuristic of the code collapses to: contains ERROR, or ends
with _FAILED. -/
theorem typeSignalsError_eq (t : String) :
    typeSignalsError t = (strIncludes t "ERROR" || strEndsWith t "_FAILED") := by
  unfold typeSignalsError
  by_cases h : strEndsWith t "_ERROR_RESPONSE" = true
  · simp [h, strIncludes_of_endsWith_error_response t h]
  · simp only [Bool.not_eq_true] at h
    simp [h]

/-- C3 (amended). For every inbound message matching a pending request: a
present non-null payload.error field rejects the request with that error
(wrapped into an Error unless it is one), taking priority over the type-name
heuristic; otherwise the request rejects with a derived error message if and
only if the type contains the substring ERROR or ends with _FAILED (the
_ERROR_RESPONSE suffix being subsumed by the substring check); otherwise the
request resolves with the raw payload. -/
theorem c3_error_classification (t : String) (p : JsVal) :
    (∀ e, errFieldOf p = some e →
      settleResponse t p = .reject (if isError e then e else .verror (jsToString e))) ∧
    (errFieldOf p = none → typeSignalsError t = true →
      settleResponse t p = .reject (.verror (failMessage t p))) ∧
    (errFieldOf p = none → typeSignalsError t = false →
      settleResponse t p = .resolve p) ∧
    typeSignalsError t = (strIncludes t "ERROR" || strEndsWith t "_FAILED") := by
  refine ⟨?_, ?_, ?_, typeSignalsError_eq t⟩
  · intro e he
    simp [settleResponse, he]
  · intro h1 h2
    simp [settleResponse, h1, h2]
  · intro h1 h2
    simp [settleResponse, h1, h2]

/-- Counterexample to C3 as stated: the message type DATA_ERRORED carries
none of the suffixes _ERROR, _FAILED, _ERROR_RESPONSE and its payload has no
error field, so the claim predicts resolution — but the code's substring
check includes("ERROR") matches and the request rejects. -/
theorem c3_suffix_claim_counterexample :
    specSuffixHeuristic "DATA_ERRORED" = false ∧
    errFieldOf (JsVal.vobj [("x", JsVal.vnum 1)]) = none ∧
    settleResponse "DATA_ERRORED" (JsVal.vobj [("x", JsVal.vnum 1)]) =
      .reject (.verror "Platform operation failed with type DATA_ERRORED") :=
  ⟨by decide, rfl, rfl⟩

/-- Witness for C3 at concrete inputs: a payload with an explicit error field
rejects with that error even though the type has no error-signalling name. -/
theorem c3_error_classification_witness :
    settleResponse "GET_PLAYER_RESPONSE" (JsVal.vobj [("error", JsVal.vstr "bad")]) =
      Settlement.reject (JsVal.verror "bad") := by
  have h := (c3_error_classification "GET_PLAYER_RESPONSE"
    (JsVal.vobj [("error", JsVal.vstr "bad")])).1 (JsVal.vstr "bad") rfl
  simpa using h

/- ### Lemmas about the readiness gate. -/

/-- The code's readiness predicate holds exactly when a user session is
present with a non-empty session token; the login flag plays no role. -/
theorem checkReady_iff (c : CoreConfig) :
    checkReady c = true ↔
      ∃ us, c.userSession = some us ∧ ∃ tk, us.sessionToken = some tk ∧ tk ≠ "" := by
  unfold checkReady
  cases c.userSession with
  | none => simp
  | some us =>
    cases h : us.sessionToken with
    | none => simp [optStrTruthy, h]
    | some tk => simp [optStrTruthy, h]

/-- C1 (amended). Across the initial configuration and every configuration
produced by a session-update merge, the ready promise has resolved exactly
when some reached configuration state contains a user session with a
non-empty session token; the login flag is not consulted, and resolution is
permanent because a later state cannot leave the set of reached states. -/
theorem c1_ready_iff_session_token (c : CoreConfig) (chunks : List CoreChunk) :
    readyResolved c chunks = true ↔
      ∃ c' ∈ configStates c chunks,
        ∃ us, c'.userSession = some us ∧ ∃ tk, us.sessionToken = some tk ∧ tk ≠ "" := by
  induction chunks generalizing c with
  | nil =>
    simp only [readyResolved, configStates, List.mem_singleton]
    rw [checkReady_iff]
    constructor
    · rintro ⟨us, h⟩
      exact ⟨c, rfl, us, h⟩
    · rintro ⟨c', rfl, us, h⟩
      exact ⟨us, h⟩
  | cons ch rest ih =>
    simp only [readyResolved, configStates, Bool.or_eq_true, List.mem_cons,
      ih (updatePlatformConfig c ch), checkReady_iff]
    constructor
    · rintro (⟨us, h⟩ | ⟨c', hc', hΦ⟩)
      · exact ⟨c, Or.inl rfl, us, h⟩
      · exact ⟨c', Or.inr hc', hΦ⟩
    · rintro ⟨c', rfl | hc', hΦ⟩
      · exact Or.inl hΦ
      · exact Or.inr ⟨c', hc', hΦ⟩

/-- The configuration used in the C1 counterexample: logged-out session with
a non-empty session token. -/
def cfgNoLoginFlag : CoreConfig :=
  { gameId := some "g1"
    platformOrigin := some "https://arcaid.xyz"
    userSession := some
      { isLoggedIn := false
        userWalletAddress := none
        sessionToken := some "tok-123" } }

/-- Counterexample to C1 as stated: the merged configuration has a non-empty
session token but a false login flag, and the ready promise resolves anyway —
the code checks only `userSession.sessionToken`, never `isLoggedIn`. -/
theorem c1_ready_ignores_login_flag :
    readyResolved cfgNoLoginFlag [] = true ∧
    cfgNoLoginFlag.userSession = some
      { isLoggedIn := false
        userWalletAddress := none
        sessionToken := some "tok-123" } :=
  ⟨rfl, rfl⟩

/- ### Theorems about makeBet. -/

/-- C4. Whenever the room identifier is missing (falsy), or the amount is not
a number or not strictly positive, or no gameId is present in the current
configuration, makeBet rejects synchronously with one of the two structured
`{success:false, error}` objects, and in particular never reaches the
transport: no request is issued, so no pending entry is registered. -/
theorem c4_makeBet_local_validation (gameId : Option String)
    (roomDocId amount reason : JsVal)
    (h : jsTruthy roomDocId = false ∨ isNumber amount = false ∨
         numLeZero amount = true ∨ optStrTruthy gameId = false) :
    (makeBetStep gameId roomDocId amount reason = .localReject false gameIdErrMsg ∨
     makeBetStep gameId roomDocId amount reason = .localReject false paramsErrMsg) ∧
    ∀ ty pl, makeBetStep gameId roomDocId amount reason ≠ .request ty pl := by
  have hstep : makeBetStep gameId roomDocId amount reason = .localReject false gameIdErrMsg ∨
      makeBetStep gameId roomDocId amount reason = .localReject false paramsErrMsg := by
    by_cases hg : optStrTruthy gameId = true
    · have hparams : (!jsTruthy roomDocId || !isNumber amount || numLeZero amount) = true := by
        rcases h with h | h | h | h
        · simp [h]
        · simp [h]
        · simp [h]
        · rw [h] at hg
          exact absurd hg (by simp)
      right
      simp [makeBetStep, hg, hparams]
    · left
      simp only [Bool.not_eq_true] at hg
      simp [makeBetStep, hg]
  refine ⟨hstep, fun ty pl hc => ?_⟩
  rcases hstep with hstep | hstep <;> rw [hstep] at hc <;> exact MakeBetStep.noConfusion hc

/-- Witness for C4: a negative amount with a valid room and gameId rejects
with the parameter-validation message. -/
theorem c4_makeBet_local_validation_witness :
    makeBetStep (some "g1") (JsVal.vstr "room1") (JsVal.vnum (-5)) JsVal.vundefined =
      .localReject false gameIdErrMsg ∨
    makeBetStep (some "g1") (JsVal.vstr "room1") (JsVal.vnum (-5)) JsVal.vundefined =
      .localReject false paramsErrMsg :=
  (c4_makeBet_local_validation (some "g1") (JsVal.vstr "room1") (JsVal.vnum (-5))
    JsVal.vundefined (Or.inr (Or.inr (Or.inl (by decide))))).1

/-- Spec-side shape of every makeBet rejection, written from the words of the
claim: a plain object `{success:false, error}` whose error is a string —
in particular not a bare Error instance. -/
def specRejectionShape : JsVal → Bool
  | .vobj [("success", .vbool false), ("error", .vstr _)] => true
  | _ => false

/-- C10. Every rejection of the promise returned by makeBet — local
validation, missing gameId, platform-signalled error, timeout, or missing
parent window (all delivered through the transport settlement) — carries a
structured `{success:false, error:<string>}` object, never a bare Error. -/
theorem c10_makeBet_rejection_shape (gameId : Option String)
    (roomDocId amount reason : JsVal) (transport : JsVal → Except JsVal JsVal)
    (e : JsVal) (h : makeBet gameId roomDocId amount reason transport = .rejected e) :
    specRejectionShape e = true := by
  unfold makeBet at h
  rcases hs : makeBetStep gameId roomDocId amount reason with ⟨s, m⟩ | ⟨ty, pl⟩
  · rw [hs] at h
    cases h
    rfl
  · rw [hs] at h
    dsimp only at h
    rcases ht : transport pl with v | v
    · rw [ht] at h
      cases h
      rfl
    · rw [ht] at h
      exact BetResult.noConfusion h

/-- Witness for C10: the transport rejects with a timeout-style Error and the
resulting makeBet rejection is the structured object. -/
theorem c10_makeBet_rejection_shape_witness :
    specRejectionShape (structuredFail "Request timed out for BET_REQUEST: sdk-msg-1") = true :=
  c10_makeBet_rejection_shape (some "g1") (JsVal.vstr "room1") (JsVal.vnum 5) JsVal.vundefined
    (fun _ => Except.error (JsVal.verror "Request timed out for BET_REQUEST: sdk-msg-1"))
    (structuredFail "Request timed out for BET_REQUEST: sdk-msg-1") rfl

/- ### Lemmas about the loader config merge. -/

/-- A falsy optional string loses a JavaScript disjunction. -/
theorem jsOrStr_of_falsy (a : Option String) (b : String)
    (h : optStrTruthy a = false) : jsOrStr a b = b := by
  cases a with
  | none => rfl
  | some s =>
    simp only [optStrTruthy, bne_eq_false_iff_eq, beq_iff_eq] at h
    simp [jsOrStr, h]

/-- A truthy optional string wins a JavaScript disjunction. -/
theorem jsOrStr_of_truthy (u : String) (b : String) (h : u ≠ "") :
    jsOrStr (some u) b = u := by
  simp [jsOrStr, h]

/-- C5. The resolved coreSdkUrl is the developer value when present and
non-empty; otherwise the platform value when present and non-empty; otherwise
the templated CDN default built from the merged (negotiated) sdkVersion, with
the literal "current" substituted when no version is known. -/
theorem c5_coreSdkUrl_resolution (dev plat : LoaderConfig) :
    (∀ u, dev.coreSdkUrl = some u → u ≠ "" → resolveCoreSdkUrl dev plat = u) ∧
    (optStrTruthy dev.coreSdkUrl = false →
      ∀ u, plat.coreSdkUrl = some u → u ≠ "" → resolveCoreSdkUrl dev plat = u) ∧
    (optStrTruthy dev.coreSdkUrl = false → optStrTruthy plat.coreSdkUrl = false →
      resolveCoreSdkUrl dev plat =
        cdnTemplate (jsOrStr (mergeLoaderConfig dev plat).sdkVersion "current")) ∧
    (optStrTruthy dev.coreSdkUrl = false → optStrTruthy plat.coreSdkUrl = false →
      optStrTruthy (mergeLoaderConfig dev plat).sdkVersion = false →
      resolveCoreSdkUrl dev plat = cdnTemplate "current") := by
  refine ⟨?_, ?_, ?_, ?_⟩
  · intro u hu hne
    rw [resolveCoreSdkUrl, hu, jsOrStr_of_truthy u _ hne]
  · intro hd u hu hne
    rw [resolveCoreSdkUrl, jsOrStr_of_falsy _ _ hd, hu, jsOrStr_of_truthy u _ hne]
  · intro hd hp
    rw [resolveCoreSdkUrl, jsOrStr_of_falsy _ _ hd, jsOrStr_of_falsy _ _ hp]
  · intro hd hp hv
    rw [resolveCoreSdkUrl, jsOrStr_of_falsy _ _ hd, jsOrStr_of_falsy _ _ hp,
      jsOrStr_of_falsy _ _ hv]

/-- Developer configuration for the C5 witness and the C6 failing input. -/
def devCfgEx : LoaderConfig :=
  { coreSdkUrl := some "X"
    arcaidApiBaseUrl := some "https://dev-api.example"
    sdkVersion := some "1.2.3"
    gameId := none
    platformOrigin := none
    userSession := none }

/-- Platform configuration for the C5 witness and the C6 failing input. -/
def platCfgEx : LoaderConfig :=
  { coreSdkUrl := some "Y"
    arcaidApiBaseUrl := some "https://plat-api.example"
    sdkVersion := some "9.9.9"
    gameId := some "g1"
    platformOrigin := some "https://arcaid.xyz"
    userSession := none }

/-- Witness for C5: with a developer override "X" and a platform value "Y",
the resolved URL is "X". -/
theorem c5_coreSdkUrl_resolution_witness :
    resolveCoreSdkUrl devCfgEx platCfgEx = "X" :=
  (c5_coreSdkUrl_resolution devCfgEx platCfgEx).1 "X" rfl (by decide)

/-- C6, evaluated at the failing input. The developer explicitly set
arcaidApiBaseUrl and sdkVersion, yet the merged configuration carries the
platform values: the spread `...platformConfig` is applied after
`...initConfigOptions`, so the guarded reassignments (which fire only when
the developer did NOT specify the field) can never restore a developer
value. This contradicts the claim, and the code contradicts its own inline
comments ("Platform version takes precedence if dev does not specify"). -/
theorem c6_merge_platform_overwrites_dev :
    (mergeLoaderConfig devCfgEx platCfgEx).arcaidApiBaseUrl =
      some "https://plat-api.example" ∧
    (mergeLoaderConfig devCfgEx platCfgEx).sdkVersion = some "9.9.9" ∧
    devCfgEx.arcaidApiBaseUrl = some "https://dev-api.example" ∧
    devCfgEx.sdkVersion = some "1.2.3" :=
  ⟨rfl, rfl, rfl, rfl⟩

/-- C7. A second call to the global init, inside or outside an iframe and
with any argument, returns the same promise as the first call, and across
both calls at most one config handshake and at most one core-script load are
performed. -/
theorem c7_init_idempotent (b1 b2 : Bool) (d1 d2 : Option LoaderConfig) :
    (initStep b2 d2 (initStep b1 d1 freshLoader).1).2 = (initStep b1 d1 freshLoader).2 ∧
    (initStep b2 d2 (initStep b1 d1 freshLoader).1).1.handshakes ≤ 1 ∧
    (initStep b2 d2 (initStep b1 d1 freshLoader).1).1.scriptLoads ≤ 1 := by
  cases b1 <;> cases b2 <;>
    exact ⟨rfl, by simp [initStep, freshLoader], by simp [initStep, freshLoader]⟩

/-- C8. For every inbound MULTIPLAYER_ROOM_MESSAGE_EVENT whose payload
carries messageType T and messageData D (and which is not intercepted as a
pending-request response), every listener registered for the specific type T
fires with D, then every listener registered under the wildcard key fires
with the envelope {type: T, data: D}; the resulting invocation list contains
nothing else, so listeners for other types are not invoked. -/
theorem c8_room_message_fanout (pending : Pending) (reg : MsgRegistry)
    (t : String) (d : JsVal) :
    handlePlatformMessage pending reg
      { type := "MULTIPLAYER_ROOM_MESSAGE_EVENT"
        messageId := none
        payload := .vobj [("messageType", .vstr t), ("messageData", d)] } =
    (regLookup reg t).map (fun c => { cb := c, arg := d }) ++
    (regLookup reg "*").map
      (fun c => { cb := c, arg := .vobj [("type", .vstr t), ("data", d)] }) := by
  simp [handlePlatformMessage, dispatchRoomMessage, jsGet, getOwn, lookupField,
    jsTruthy, isUndef, asKey]
